import Mathlib

/-!
Shallow embedding of the in-memory data pipeline of the
DataEngineeringPipeline-AA repository — `src/in_memory/data_cleaner.py`
(`DataCleaner.clean_customers`, `DataCleaner.clean_orders`,
`DataCleaner.merge_customer_orders`) and `src/in_memory/kpi_calculator.py`
(`KPICalculator._calculate_*`) — together with proofs of the specification
claims C1–C10.

Modelling conventions:
- A pandas DataFrame is a `List` of row structures, kept in frame order.
- A nullable cell (NaN / NaT / None) is an `Option`.
- Numeric columns passed through `pd.to_numeric(..., errors='coerce')` are
  modelled post-coercion as `Option ℚ` (`none` = NaN, i.e. a missing value or
  a failed coercion); datetimes passed through
  `pd.to_datetime(..., errors='coerce')` are modelled post-parse as
  `Option Timestamp` (`none` = NaT).
- pandas `groupby` produces one group per distinct key and drops null keys;
  `nunique` and `count` ignore nulls; `sum`, `mean`, `min`, `max`, `median`
  skip NaN, with the empty `mean`/`min`/`max`/`median` modelled as `none`
  (pandas returns NaN there).  pandas sorts group keys; no claim proved here
  depends on the order of the rows of a grouped table, so groups are listed
  in first-appearance order instead of key order (sums, counts, means,
  maxima and set-like equalities are order-independent).
- Python `str.strip` and `str.title` are modelled on the ASCII range,
  matching Lean's `Char.toUpper` / `Char.toLower` / `Char.isWhitespace`.
-/

namespace Pipeline

/-! ### Python string helpers -/

/-- Python `str.lstrip()`: drop leading whitespace. -/
def lstripChars (l : List Char) : List Char := l.dropWhile Char.isWhitespace

/-- Drop trailing whitespace. -/
def rstripChars (l : List Char) : List Char :=
  (l.reverse.dropWhile Char.isWhitespace).reverse

/-- Python `str.strip()`: drop leading and trailing whitespace. -/
def stripChars (l : List Char) : List Char := rstripChars (lstripChars l)

/-- Python `str.strip()` on a `String`. -/
def stripStr (s : String) : String := ⟨stripChars s.data⟩

/-- Python `str.title()` on ASCII text: the first alphabetic character of
every alphabetic run is upper-cased and the following ones lower-cased; the
boolean argument records whether the previous character was alphabetic. -/
def titleChars : Bool → List Char → List Char
  | _, [] => []
  | prev, c :: cs =>
    if c.isAlpha then
      (if prev then c.toLower else c.toUpper) :: titleChars true cs
    else
      c :: titleChars false cs

/-- Python `str.title()` on a `String`. -/
def titleStr (s : String) : String := ⟨titleChars false s.data⟩

/-! ### Character-level facts used for the idempotence proofs -/

theorem char_toNat_ofNat (n : Nat) (h : n < 0xd800) : (Char.ofNat n).toNat = n := by
  simp only [Char.ofNat, Nat.isValidChar]
  rw [dif_pos (Or.inl h)]
  rfl

theorem char_toUpper_eq (c : Char) :
    c.toUpper = if c.toNat ≥ 97 ∧ c.toNat ≤ 122 then Char.ofNat (c.toNat - 32) else c := rfl

theorem char_toLower_eq (c : Char) :
    c.toLower = if c.toNat ≥ 65 ∧ c.toNat ≤ 90 then Char.ofNat (c.toNat + 32) else c := rfl

theorem char_isAlpha_iff (c : Char) :
    c.isAlpha = true ↔ (65 ≤ c.toNat ∧ c.toNat ≤ 90) ∨ (97 ≤ c.toNat ∧ c.toNat ≤ 122) := by
  simp only [Char.isAlpha, Char.isUpper, Char.isLower, Bool.or_eq_true, Bool.and_eq_true,
    decide_eq_true_eq, ge_iff_le]
  exact Iff.rfl

theorem char_isWS_iff (c : Char) :
    c.isWhitespace = true ↔ c.toNat = 32 ∨ c.toNat = 9 ∨ c.toNat = 13 ∨ c.toNat = 10 := by
  constructor
  · intro h
    simp only [Char.isWhitespace, Bool.or_eq_true, decide_eq_true_eq] at h
    rcases h with (((h | h) | h) | h) <;> subst h <;> decide
  · intro h
    have hc : c = ' ' ∨ c = '\t' ∨ c = '\r' ∨ c = '\n' := by
      rcases h with (h | h | h | h)
      · exact Or.inl (Char.eq_of_val_eq (UInt32.toNat.inj h))
      · exact Or.inr (Or.inl (Char.eq_of_val_eq (UInt32.toNat.inj h)))
      · exact Or.inr (Or.inr (Or.inl (Char.eq_of_val_eq (UInt32.toNat.inj h))))
      · exact Or.inr (Or.inr (Or.inr (Char.eq_of_val_eq (UInt32.toNat.inj h))))
    rcases hc with (h | h | h | h) <;> subst h <;> decide

theorem char_toUpper_toUpper (c : Char) : c.toUpper.toUpper = c.toUpper := by
  by_cases h : c.toNat ≥ 97 ∧ c.toNat ≤ 122
  · rw [char_toUpper_eq c, if_pos h, char_toUpper_eq, if_neg]
    rw [char_toNat_ofNat _ (by omega)]
    omega
  · rw [char_toUpper_eq c, if_neg h, char_toUpper_eq, if_neg h]

theorem char_toLower_toLower (c : Char) : c.toLower.toLower = c.toLower := by
  by_cases h : c.toNat ≥ 65 ∧ c.toNat ≤ 90
  · rw [char_toLower_eq c, if_pos h, char_toLower_eq, if_neg]
    rw [char_toNat_ofNat _ (by omega)]
    omega
  · rw [char_toLower_eq c, if_neg h, char_toLower_eq, if_neg h]

theorem char_isAlpha_toUpper (c : Char) : c.toUpper.isAlpha = c.isAlpha := by
  by_cases h : c.toNat ≥ 97 ∧ c.toNat ≤ 122
  · have h1 : (Char.ofNat (c.toNat - 32)).toNat = c.toNat - 32 := char_toNat_ofNat _ (by omega)
    have hl : c.toUpper.isAlpha = true := by
      rw [char_isAlpha_iff, char_toUpper_eq, if_pos h, h1]
      omega
    have hr : c.isAlpha = true := by
      rw [char_isAlpha_iff]
      omega
    rw [hl, hr]
  · rw [char_toUpper_eq, if_neg h]

theorem char_isAlpha_toLower (c : Char) : c.toLower.isAlpha = c.isAlpha := by
  by_cases h : c.toNat ≥ 65 ∧ c.toNat ≤ 90
  · have h1 : (Char.ofNat (c.toNat + 32)).toNat = c.toNat + 32 := char_toNat_ofNat _ (by omega)
    have hl : c.toLower.isAlpha = true := by
      rw [char_isAlpha_iff, char_toLower_eq, if_pos h, h1]
      omega
    have hr : c.isAlpha = true := by
      rw [char_isAlpha_iff]
      omega
    rw [hl, hr]
  · rw [char_toLower_eq, if_neg h]

theorem char_isWS_toUpper (c : Char) : c.toUpper.isWhitespace = c.isWhitespace := by
  by_cases h : c.toNat ≥ 97 ∧ c.toNat ≤ 122
  · have h1 : (Char.ofNat (c.toNat - 32)).toNat = c.toNat - 32 := char_toNat_ofNat _ (by omega)
    have hl : c.toUpper.isWhitespace = false := by
      rw [← Bool.not_eq_true, char_isWS_iff, char_toUpper_eq, if_pos h, h1]
      omega
    have hr : c.isWhitespace = false := by
      rw [← Bool.not_eq_true, char_isWS_iff]
      omega
    rw [hl, hr]
  · rw [char_toUpper_eq, if_neg h]

theorem char_isWS_toLower (c : Char) : c.toLower.isWhitespace = c.isWhitespace := by
  by_cases h : c.toNat ≥ 65 ∧ c.toNat ≤ 90
  · have h1 : (Char.ofNat (c.toNat + 32)).toNat = c.toNat + 32 := char_toNat_ofNat _ (by omega)
    have hl : c.toLower.isWhitespace = false := by
      rw [← Bool.not_eq_true, char_isWS_iff, char_toLower_eq, if_pos h, h1]
      omega
    have hr : c.isWhitespace = false := by
      rw [← Bool.not_eq_true, char_isWS_iff]
      omega
    rw [hl, hr]
  · rw [char_toLower_eq, if_neg h]

/-! ### Idempotence of `strip` and `title` -/

theorem dropWhile_idem (p : α → Bool) (l : List α) :
    (l.dropWhile p).dropWhile p = l.dropWhile p := by
  induction l with
  | nil => rfl
  | cons c cs ih =>
    by_cases h : p c
    · simp [List.dropWhile_cons, h, ih]
    · simp [List.dropWhile_cons, h]

theorem head_dropWhile_false (p : α → Bool) (l : List α) (x : α)
    (h : (l.dropWhile p).head? = some x) : p x = false := by
  induction l with
  | nil => simp at h
  | cons c cs ih =>
    by_cases hc : p c
    · rw [List.dropWhile_cons, if_pos hc] at h
      exact ih h
    · rw [List.dropWhile_cons, if_neg hc, List.head?_cons, Option.some.injEq] at h
      rw [← h]
      exact Bool.not_eq_true _ ▸ hc

theorem dropWhile_of_head_false (p : α → Bool) (l : List α)
    (h : ∀ x, l.head? = some x → p x = false) : l.dropWhile p = l := by
  cases l with
  | nil => rfl
  | cons c cs =>
    rw [List.dropWhile_cons, if_neg]
    rw [h c rfl]
    simp

theorem lstrip_idem (l : List Char) : lstripChars (lstripChars l) = lstripChars l :=
  dropWhile_idem _ l

theorem rstrip_idem (l : List Char) : rstripChars (rstripChars l) = rstripChars l := by
  unfold rstripChars
  rw [List.reverse_reverse, dropWhile_idem]

theorem head?_append_of_ne_nil (s t : List α) (h : s ≠ []) : (s ++ t).head? = s.head? := by
  cases s with
  | nil => exact absurd rfl h
  | cons a as => rfl

theorem rstrip_decomposition (l : List Char) :
    l = rstripChars l ++ (l.reverse.takeWhile Char.isWhitespace).reverse := by
  unfold rstripChars
  rw [← List.reverse_append, List.takeWhile_append_dropWhile, List.reverse_reverse]

theorem lstrip_rstrip_of_lstripped (l : List Char) (h : lstripChars l = l) :
    lstripChars (rstripChars l) = rstripChars l := by
  apply dropWhile_of_head_false
  intro x hx
  have hne : rstripChars l ≠ [] := by
    intro hnil
    rw [hnil] at hx
    simp at hx
  have hhead : l.head? = some x := by
    rw [rstrip_decomposition l, head?_append_of_ne_nil _ _ hne]
    exact hx
  have hd : (l.dropWhile Char.isWhitespace).head? = some x := by
    have : lstripChars l = l := h
    unfold lstripChars at this
    rw [this]
    exact hhead
  exact head_dropWhile_false _ _ _ hd

theorem strip_idem (l : List Char) : stripChars (stripChars l) = stripChars l := by
  unfold stripChars
  have h1 : lstripChars (rstripChars (lstripChars l)) = rstripChars (lstripChars l) :=
    lstrip_rstrip_of_lstripped _ (lstrip_idem l)
  rw [h1, rstrip_idem]

theorem stripStr_idem (s : String) : stripStr (stripStr s) = stripStr s :=
  congrArg String.mk (strip_idem s.data)

theorem titleChars_idem (l : List Char) : ∀ b, titleChars b (titleChars b l) = titleChars b l := by
  induction l with
  | nil => intro b; rfl
  | cons c cs ih =>
    intro b
    by_cases ha : c.isAlpha
    · cases b
      · simp only [titleChars, ha, if_true, Bool.false_eq_true, if_false,
          char_isAlpha_toUpper]
        rw [char_toUpper_toUpper, ih true]
      · simp only [titleChars, ha, if_true, char_isAlpha_toLower]
        rw [char_toLower_toLower, ih true]
    · have ha' : c.isAlpha = false := Bool.eq_false_iff.mpr ha
      simp only [titleChars, ha', Bool.false_eq_true, if_false]
      rw [ih false]

theorem titleStr_idem (s : String) : titleStr (titleStr s) = titleStr s :=
  congrArg String.mk (titleChars_idem s.data false)

theorem char_ws_not_alpha (c : Char) (h : c.isWhitespace = true) : c.isAlpha = false := by
  rw [← Bool.not_eq_true, char_isAlpha_iff]
  rw [char_isWS_iff] at h
  omega

theorem titleChars_length (l : List Char) : ∀ b, (titleChars b l).length = l.length := by
  induction l with
  | nil => intro b; rfl
  | cons c cs ih =>
    intro b
    by_cases ha : c.isAlpha
    · simp only [titleChars, ha, if_true, List.length_cons, ih true]
    · have ha' : c.isAlpha = false := Bool.eq_false_iff.mpr ha
      simp only [titleChars, ha', Bool.false_eq_true, if_false, List.length_cons, ih false]

theorem titleChars_map_isWS (l : List Char) :
    ∀ b, (titleChars b l).map Char.isWhitespace = l.map Char.isWhitespace := by
  induction l with
  | nil => intro b; rfl
  | cons c cs ih =>
    intro b
    by_cases ha : c.isAlpha
    · cases b
      · simp only [titleChars, ha, if_true, Bool.false_eq_true, if_false, List.map_cons,
          char_isWS_toUpper, ih true]
      · simp only [titleChars, ha, if_true, List.map_cons, char_isWS_toLower, ih true]
    · have ha' : c.isAlpha = false := Bool.eq_false_iff.mpr ha
      simp only [titleChars, ha', Bool.false_eq_true, if_false, List.map_cons, ih false]

theorem lstrip_titleChars (l : List Char) :
    lstripChars (titleChars false l) = titleChars false (lstripChars l) := by
  induction l with
  | nil => rfl
  | cons c cs ih =>
    by_cases hw : c.isWhitespace
    · have ha : c.isAlpha = false := char_ws_not_alpha c hw
      simp only [titleChars, ha, Bool.false_eq_true, if_false]
      unfold lstripChars at *
      rw [List.dropWhile_cons, if_pos hw, List.dropWhile_cons, if_pos hw]
      exact ih
    · have hw' : c.isWhitespace = false := Bool.eq_false_iff.mpr hw
      unfold lstripChars at *
      rw [List.dropWhile_cons, if_neg hw]
      by_cases ha : c.isAlpha
      · simp only [titleChars, ha, if_true, Bool.false_eq_true, if_false]
        rw [List.dropWhile_cons, if_neg (by rw [char_isWS_toUpper, hw']; simp)]
      · have ha' : c.isAlpha = false := Bool.eq_false_iff.mpr ha
        simp only [titleChars, ha', Bool.false_eq_true, if_false]
        rw [List.dropWhile_cons, if_neg (by rw [hw']; simp)]

theorem rstrip_of_getLast (v : List Char)
    (h : ∀ x, v.getLast? = some x → Char.isWhitespace x = false) : rstripChars v = v := by
  unfold rstripChars
  rw [dropWhile_of_head_false, List.reverse_reverse]
  intro x hx
  apply h
  rw [← List.head?_reverse]
  exact hx

theorem getLast_of_rstripped (u : List Char) (h : rstripChars u = u) (y : Char)
    (hy : u.getLast? = some y) : Char.isWhitespace y = false := by
  have h2 : (u.reverse.dropWhile Char.isWhitespace) = u.reverse := by
    have := congrArg List.reverse h
    unfold rstripChars at this
    rw [List.reverse_reverse] at this
    exact this
  apply head_dropWhile_false Char.isWhitespace u.reverse
  rw [h2, List.head?_reverse]
  exact hy

theorem rstrip_titleChars_of_rstripped (u : List Char) (h : rstripChars u = u) :
    rstripChars (titleChars false u) = titleChars false u := by
  apply rstrip_of_getLast
  intro x hx
  have hne : titleChars false u ≠ [] := by
    intro hnil
    rw [hnil] at hx
    simp at hx
  have hune : u ≠ [] := by
    intro hnil
    subst hnil
    exact hne rfl
  obtain ⟨y, hy⟩ : ∃ y, u.getLast? = some y := by
    cases hu : u.getLast? with
    | none => exact absurd (List.getLast?_eq_none_iff.mp hu) hune
    | some y => exact ⟨y, rfl⟩
  have hmapv : ((titleChars false u).map Char.isWhitespace).getLast? =
      some (Char.isWhitespace x) := by
    rw [List.getLast?_map]
    rw [hx]
    rfl
  have hmapu : (u.map Char.isWhitespace).getLast? = some (Char.isWhitespace y) := by
    rw [List.getLast?_map]
    rw [hy]
    rfl
  have : Char.isWhitespace x = Char.isWhitespace y := by
    have h3 := hmapv
    rw [titleChars_map_isWS u false, hmapu] at h3
    exact ((Option.some.injEq _ _).mp h3).symm
  rw [this]
  exact getLast_of_rstripped u h y hy

theorem lstrip_stripChars (x : List Char) : lstripChars (stripChars x) = stripChars x :=
  lstrip_rstrip_of_lstripped (lstripChars x) (lstrip_idem x)

theorem rstrip_stripChars (x : List Char) : rstripChars (stripChars x) = stripChars x := by
  unfold stripChars
  exact rstrip_idem _

theorem stripChars_titleChars (x : List Char) :
    stripChars (titleChars false (stripChars x)) = titleChars false (stripChars x) := by
  have h1 : lstripChars (titleChars false (stripChars x)) = titleChars false (stripChars x) := by
    rw [lstrip_titleChars, lstrip_stripChars]
  show rstripChars (lstripChars (titleChars false (stripChars x))) =
    titleChars false (stripChars x)
  rw [h1]
  exact rstrip_titleChars_of_rstripped _ (rstrip_stripChars x)

theorem title_strip_round (s : String) :
    titleStr (stripStr (titleStr (stripStr s))) = titleStr (stripStr s) := by
  apply congrArg String.mk
  show titleChars false (stripChars (titleChars false (stripChars s.data))) =
    titleChars false (stripChars s.data)
  rw [stripChars_titleChars, titleChars_idem]

/-! ### Data model: customers -/

/-- A raw customer row of the `customers` DataFrame; every cell may be
missing (NaN). -/
structure Customer where
  customer_id : Option String
  customer_name : Option String
  mobile_number : Option String
  region : Option String
deriving DecidableEq

/-- pandas `df[~df.duplicated(subset=[key], keep='first')]`: keep the first
row for each key value.  pandas treats two NaN keys as duplicates of each
other, which matches plain `Option` equality here. -/
def dedupKeyed (key : α → κ) [DecidableEq κ] : List α → List α
  | [] => []
  | x :: xs => x :: (dedupKeyed key xs).filter (fun y => key y ≠ key x)

/-- Distinct values of a list in order of first appearance (pandas
`Series.unique()` / the group keys of a `groupby`). -/
def dedupList [DecidableEq κ] : List κ → List κ
  | [] => []
  | x :: xs => x :: (dedupList xs).filter (fun y => y ≠ x)

/-- Steps 2–4 of `DataCleaner.clean_customers` applied to one surviving row:
`fillna('Unknown')` on name and region, `astype(str).str.strip()` on the
mobile number, `str.strip().str.title()` on the region. -/
def fillAndNormalize (c : Customer) : Customer :=
  { customer_id := c.customer_id
    customer_name := some (c.customer_name.getD "Unknown")
    mobile_number := some (stripStr (c.mobile_number.getD ""))
    region := some (titleStr (stripStr (c.region.getD "Unknown"))) }

/-- `DataCleaner.clean_customers`: (1) drop `customer_id` duplicates keeping
the first occurrence, (2) drop rows with missing `customer_id` or
`mobile_number`, (3)–(4) fill and normalize the remaining rows.  The
`getD` defaults inside `fillAndNormalize` are never exercised for the
dropped-nullable fields because of the filter. -/
def clean_customers (df : List Customer) : List Customer :=
  ((dedupKeyed (fun c => c.customer_id) df).filter
      (fun c => c.customer_id.isSome && c.mobile_number.isSome)).map fillAndNormalize

/-! ### Generic list lemmas -/

theorem mem_dedupList [DecidableEq κ] (l : List κ) (a : κ) : a ∈ dedupList l ↔ a ∈ l := by
  induction l with
  | nil => rfl
  | cons x xs ih =>
    rw [dedupList]
    constructor
    · intro h
      rcases List.mem_cons.mp h with h | h
      · exact h ▸ List.mem_cons_self _ _
      · exact List.mem_cons_of_mem _ (ih.mp (List.mem_filter.mp h).1)
    · intro h
      rcases List.mem_cons.mp h with h | h
      · exact h ▸ List.mem_cons_self _ _
      · by_cases hx : a = x
        · exact hx ▸ List.mem_cons_self _ _
        · exact List.mem_cons_of_mem _
            (List.mem_filter.mpr ⟨ih.mpr h, by simpa using hx⟩)

theorem nodup_dedupList [DecidableEq κ] (l : List κ) : (dedupList l).Nodup := by
  induction l with
  | nil => exact List.nodup_nil
  | cons x xs ih =>
    rw [dedupList]
    refine List.Nodup.cons ?_ (ih.filter _)
    intro hmem
    have := (List.mem_filter.mp hmem).2
    simp at this

theorem dedupKeyed_pairwise (key : α → κ) [DecidableEq κ] (l : List α) :
    (dedupKeyed key l).Pairwise (fun a b => key a ≠ key b) := by
  induction l with
  | nil => exact List.Pairwise.nil
  | cons x xs ih =>
    rw [dedupKeyed]
    refine List.Pairwise.cons ?_ (ih.filter _)
    intro y hy
    have := (List.mem_filter.mp hy).2
    simp only [ne_eq, decide_not, Bool.not_eq_eq_eq_not, Bool.not_true, decide_eq_false_iff_not] at this
    exact fun h => this h.symm

theorem dedupKeyed_eq_self (key : α → κ) [DecidableEq κ] (l : List α)
    (h : l.Pairwise (fun a b => key a ≠ key b)) : dedupKeyed key l = l := by
  induction l with
  | nil => rfl
  | cons x xs ih =>
    rw [dedupKeyed, ih h.of_cons, List.filter_eq_self.mpr]
    intro y hy
    have := List.rel_of_pairwise_cons h hy
    simp only [ne_eq, decide_not, Bool.not_eq_eq_eq_not, Bool.not_true, decide_eq_false_iff_not]
    exact fun hk => this hk.symm

theorem map_eq_self_of (f : α → α) (l : List α) (h : ∀ a ∈ l, f a = a) : l.map f = l := by
  induction l with
  | nil => rfl
  | cons x xs ih =>
    rw [List.map_cons, h x (List.mem_cons_self _ _), ih (fun a ha => h a (List.mem_cons_of_mem _ ha))]

theorem length_filter_partition (p : α → Bool) (l : List α) :
    (l.filter p).length + (l.filter (fun a => !(p a))).length = l.length := by
  induction l with
  | nil => rfl
  | cons x xs ih =>
    by_cases h : p x
    · rw [List.filter_cons_of_pos h, List.filter_cons_of_neg (by rw [h]; simp)]
      simp only [List.length_cons]
      omega
    · have h' : p x = false := Bool.eq_false_iff.mpr h
      rw [List.filter_cons_of_neg (by rw [h']; simp), List.filter_cons_of_pos (by rw [h']; simp)]
      simp only [List.length_cons]
      omega

theorem count_filter_eq [DecidableEq α] (p : α → Bool) (l : List α) (a : α) :
    (l.filter p).count a = if p a then l.count a else 0 := by
  induction l with
  | nil => simp
  | cons x xs ih =>
    by_cases hx : x = a
    · subst hx
      by_cases h : p x
      · rw [List.filter_cons_of_pos h, List.count_cons_self, List.count_cons_self, ih, if_pos h,
          if_pos h]
      · have h' : p x = false := Bool.eq_false_iff.mpr h
        rw [List.filter_cons_of_neg (by rw [h']; simp), List.count_cons_self, ih, if_neg h,
          if_neg h]
    · by_cases h : p x
      · rw [List.filter_cons_of_pos h, List.count_cons_of_ne (fun hh => hx hh.symm),
          List.count_cons_of_ne (fun hh => hx hh.symm), ih]
      · have h' : p x = false := Bool.eq_false_iff.mpr h
        rw [List.filter_cons_of_neg (by rw [h']; simp),
          List.count_cons_of_ne (fun hh => hx hh.symm), ih]

/-! ### Facts about `clean_customers` -/

theorem fillAndNormalize_idem (c : Customer) :
    fillAndNormalize (fillAndNormalize c) = fillAndNormalize c := by
  unfold fillAndNormalize
  simp only [Option.getD_some, stripStr_idem, title_strip_round]

theorem clean_customers_pairwise (df : List Customer) :
    (clean_customers df).Pairwise (fun a b => a.customer_id ≠ b.customer_id) := by
  unfold clean_customers
  apply List.Pairwise.map
  · intro a b hab
    exact hab
  · exact (dedupKeyed_pairwise (fun c => c.customer_id) df).filter _

theorem clean_customers_shape (df : List Customer) :
    ∀ c ∈ clean_customers df, ∃ c₀, c₀.customer_id.isSome ∧ c = fillAndNormalize c₀ := by
  intro c hc
  unfold clean_customers at hc
  obtain ⟨c₀, hc₀, hmap⟩ := List.mem_map.mp hc
  have hfields := (List.mem_filter.mp hc₀).2
  rw [Bool.and_eq_true] at hfields
  exact ⟨c₀, hfields.1, hmap.symm⟩

theorem clean_customers_mobile (df : List Customer) :
    ∀ c ∈ clean_customers df, ∃ s, c.mobile_number = some s ∧ stripStr s = s := by
  intro c hc
  obtain ⟨c₀, _, hc⟩ := clean_customers_shape df c hc
  subst hc
  exact ⟨stripStr (c₀.mobile_number.getD ""), rfl, stripStr_idem _⟩

theorem clean_customers_fix (df : List Customer) :
    ∀ c ∈ clean_customers df, fillAndNormalize c = c := by
  intro c hc
  obtain ⟨c₀, _, hc⟩ := clean_customers_shape df c hc
  subst hc
  exact fillAndNormalize_idem c₀

theorem clean_customers_idem (df : List Customer) :
    clean_customers (clean_customers df) = clean_customers df := by
  show ((dedupKeyed (fun c => c.customer_id) (clean_customers df)).filter
      (fun c => c.customer_id.isSome && c.mobile_number.isSome)).map fillAndNormalize =
    clean_customers df
  rw [dedupKeyed_eq_self _ _ (clean_customers_pairwise df)]
  rw [List.filter_eq_self.mpr]
  · exact map_eq_self_of _ _ (clean_customers_fix df)
  · intro c hc
    rw [Bool.and_eq_true]
    refine ⟨?_, ?_⟩
    · obtain ⟨c₀, h₀, hc'⟩ := clean_customers_shape df c hc
      subst hc'
      exact h₀
    · obtain ⟨s, hs, _⟩ := clean_customers_mobile df c hc
      rw [hs]
      rfl

/-- Claim C5: for every raw customer set, the cleaned customer set has no
two records sharing a `customer_id` and no record with a null
`mobile_number`. -/
theorem C5_clean_customers_invariants (df : List Customer) :
    (clean_customers df).Pairwise (fun a b => a.customer_id ≠ b.customer_id) ∧
    ∀ c ∈ clean_customers df, c.mobile_number ≠ none := by
  refine ⟨clean_customers_pairwise df, ?_⟩
  intro c hc
  obtain ⟨s, hs, _⟩ := clean_customers_mobile df c hc
  rw [hs]
  exact Option.some_ne_none s

/-- Two raw customer rows with distinct `customer_id` but the same
`mobile_number`: both survive `clean_customers`. -/
def dupMobileCustomers : List Customer :=
  [{ customer_id := some "C1", customer_name := some "alice",
     mobile_number := some "9999999999", region := some "north" },
   { customer_id := some "C2", customer_name := some "bob",
     mobile_number := some "9999999999", region := some "south" }]

/-- Claim C9 (counterexample): customer cleaning deduplicates only on
`customer_id`, so two cleaned records can share the same `mobile_number`. -/
theorem C9_counterexample :
    ¬ (clean_customers dupMobileCustomers).Pairwise
        (fun a b => a.mobile_number ≠ b.mobile_number) := by decide

/-- Claim C9 (amended): in every cleaned customer set the `mobile_number`
is non-null and whitespace-normalized, so it is a usable join key; it is
not necessarily unique across records (uniqueness holds for `customer_id`
only). -/
theorem C9_amended_mobile_nonnull (df : List Customer) :
    ∀ c ∈ clean_customers df, ∃ s, c.mobile_number = some s ∧ stripStr s = s :=
  clean_customers_mobile df

/-! ### Data model: orders -/

/-- A parsed datetime (the result of a successful
`pd.to_datetime(..., errors='coerce')`). -/
structure Timestamp where
  year : Int
  month : Int
  day : Int
  hour : Int
  minute : Int
  second : Int
deriving DecidableEq

/-- Weekday name of a date (`Series.dt.day_name()`), via Zeller's congruence
on the proleptic Gregorian calendar. -/
def dayName (t : Timestamp) : String :=
  let m := if t.month ≤ 2 then t.month + 12 else t.month
  let y := if t.month ≤ 2 then t.year - 1 else t.year
  let K := y % 100
  let J := y / 100
  let h := (t.day + (13 * (m + 1)) / 5 + K + K / 4 + J / 4 + 5 * J) % 7
  ["Saturday", "Sunday", "Monday", "Tuesday", "Wednesday", "Thursday", "Friday"].getD h.toNat "Saturday"

/-- A raw order line item.  `sku_count` and `total_amount` hold the value
after the `pd.to_numeric(..., errors='coerce')` step of
`DataCleaner.clean_orders` (`none` = NaN / failed coercion), and
`order_date_time` holds the value that `pd.to_datetime(..., errors='coerce')`
would produce (`none` = NaT / unparseable). -/
structure RawOrder where
  order_id : Option String
  mobile_number : Option String
  order_date_time : Option Timestamp
  sku_id : Option String
  sku_count : Option ℚ
  total_amount : Option ℚ
deriving DecidableEq

/-- A cleaned order line item, with the calendar columns derived in step 4 of
`DataCleaner.clean_orders`.  The key columns are typed non-nullable because
validation guarantees they are present (`getD` defaults below are never
exercised on validated rows). -/
structure CleanOrder where
  order_id : String
  mobile_number : String
  order_date_time : Option Timestamp
  sku_id : String
  sku_count : Int
  total_amount : Option ℚ
  order_year : Option Int
  order_month : Option Int
  order_day : Option Int
  order_hour : Option Int
  order_weekday : Option String
deriving DecidableEq

/-- Predicate 1 of `clean_orders`: missing / non-coercible `sku_count`. -/
def missing_sku_count (r : RawOrder) : Bool := r.sku_count.isNone

/-- Predicate 2: non-positive `sku_count` (the code also conjoins
`~isna`, mirrored by the `match`). -/
def nonpositive_sku_count (r : RawOrder) : Bool :=
  match r.sku_count with
  | some q => decide (q ≤ 0)
  | none => false

/-- Predicate 3: negative `total_amount` (conjoined with `~isna`). -/
def negative_total_amount (r : RawOrder) : Bool :=
  match r.total_amount with
  | some q => decide (q < 0)
  | none => false

/-- Predicate 4: a missing critical field among
`order_id`, `mobile_number`, `sku_id`. -/
def missing_key_fields (r : RawOrder) : Bool :=
  r.order_id.isNone || r.mobile_number.isNone || r.sku_id.isNone

/-- The combined `invalid_mask` of `DataCleaner.clean_orders`. -/
def invalid_mask (r : RawOrder) : Bool :=
  missing_sku_count r || nonpositive_sku_count r || negative_total_amount r ||
    missing_key_fields r

/-- Steps 3–5 of `clean_orders` on one valid row: the date is parsed (already
reflected in the model), calendar columns are derived from it (NaT gives NaN
in each derived column), `sku_count` is truncated to an integer by
`astype(int)` (equal to `⌊·⌋` on the positive values that pass validation)
and `mobile_number` is `astype(str).str.strip()`-normalized. -/
def toCleanOrder (r : RawOrder) : CleanOrder :=
  { order_id := r.order_id.getD ""
    mobile_number := stripStr (r.mobile_number.getD "")
    order_date_time := r.order_date_time
    sku_id := r.sku_id.getD ""
    sku_count := ⌊r.sku_count.getD 0⌋
    total_amount := r.total_amount
    order_year := r.order_date_time.map (fun t => t.year)
    order_month := r.order_date_time.map (fun t => t.month)
    order_day := r.order_date_time.map (fun t => t.day)
    order_hour := r.order_date_time.map (fun t => t.hour)
    order_weekday := r.order_date_time.map dayName }

/-- `DataCleaner.clean_orders`: rows matching `invalid_mask` are routed to
the invalid frame (once each, via the mask — the per-predicate
`invalid_records` list in the code is never used to build the output); the
remaining rows are transformed into clean rows.  Returns
`(clean_orders, invalid_orders)`. -/
def clean_orders (df : List RawOrder) : List CleanOrder × List RawOrder :=
  ((df.filter (fun r => !(invalid_mask r))).map toCleanOrder,
    df.filter (fun r => invalid_mask r))

/-- Reinterpret a cleaned order row as a raw row, for re-running the
Cleaning Engine on its own output (in the Python code both are plain
DataFrames, so the second run consumes the first run's output directly). -/
def cleanOrderToRaw (c : CleanOrder) : RawOrder :=
  { order_id := some c.order_id
    mobile_number := some c.mobile_number
    order_date_time := c.order_date_time
    sku_id := some c.sku_id
    sku_count := some (c.sku_count : ℚ)
    total_amount := c.total_amount }

/-- The four predicates exactly as the claim states them, on coerced
values. -/
def claimInvalid (r : RawOrder) : Prop :=
  r.sku_count = none ∨ (∃ q, r.sku_count = some q ∧ q ≤ 0) ∨
    (∃ q, r.total_amount = some q ∧ q < 0) ∨
    r.order_id = none ∨ r.mobile_number = none ∨ r.sku_id = none

/-- Claim C3: order cleaning partitions its input — clean count plus invalid
count equals the original count; a row is routed to invalid exactly when one
of the four predicates holds on the coerced values, and each input row
occurs in the invalid output exactly as often as in the input (never
duplicated by matching several predicates); the clean side is exactly the
transform of the non-matching rows. -/
theorem C3_clean_orders_partition (df : List RawOrder) :
    (clean_orders df).1.length + (clean_orders df).2.length = df.length ∧
    (∀ r : RawOrder, invalid_mask r = true ↔ claimInvalid r) ∧
    (∀ r : RawOrder, (clean_orders df).2.count r =
      if invalid_mask r then df.count r else 0) ∧
    (clean_orders df).1 = (df.filter (fun r => !(invalid_mask r))).map toCleanOrder := by
  refine ⟨?_, ?_, ?_, rfl⟩
  · show ((df.filter (fun r => !(invalid_mask r))).map toCleanOrder).length +
      (df.filter (fun r => invalid_mask r)).length = df.length
    rw [List.length_map]
    rw [Nat.add_comm]
    exact length_filter_partition (fun r => invalid_mask r) df
  · intro r
    unfold invalid_mask missing_sku_count nonpositive_sku_count negative_total_amount
      missing_key_fields claimInvalid
    cases hs : r.sku_count <;> cases ht : r.total_amount <;>
      simp [hs, ht, Option.isNone_iff_eq_none, decide_eq_true_eq] <;> tauto
  · intro r
    exact count_filter_eq _ df r

/-! ### Idempotence of the Cleaning Engine (claim C6) -/

theorem invalid_mask_false (r : RawOrder) (h : invalid_mask r = false) :
    missing_sku_count r = false ∧ nonpositive_sku_count r = false ∧
    negative_total_amount r = false ∧ missing_key_fields r = false := by
  unfold invalid_mask at h
  simp only [Bool.or_eq_false_iff] at h
  exact ⟨h.1.1.1, h.1.1.2, h.1.2, h.2⟩

theorem clean_orders_row_shape (df : List RawOrder) :
    ∀ c ∈ (clean_orders df).1, ∃ r, invalid_mask r = false ∧ c = toCleanOrder r := by
  intro c hc
  obtain ⟨r, hr, hmap⟩ := List.mem_map.mp hc
  have hmask := (List.mem_filter.mp hr).2
  rw [Bool.not_eq_true'] at hmask
  exact ⟨r, hmask, hmap.symm⟩

theorem clean_orders_total_nonneg (df : List RawOrder) :
    ∀ c ∈ (clean_orders df).1, ∀ q, c.total_amount = some q → 0 ≤ q := by
  intro c hc q hq
  obtain ⟨r, hmask, hform⟩ := clean_orders_row_shape df c hc
  have hneg := (invalid_mask_false r hmask).2.2.1
  subst hform
  have hq' : r.total_amount = some q := hq
  unfold negative_total_amount at hneg
  rw [hq'] at hneg
  simp only [decide_eq_false_iff_not, not_lt] at hneg
  exact hneg

theorem cleanOrderToRaw_valid (c : CleanOrder) (hsku : 1 ≤ c.sku_count)
    (htot : ∀ q, c.total_amount = some q → 0 ≤ q) :
    invalid_mask (cleanOrderToRaw c) = false := by
  unfold invalid_mask cleanOrderToRaw missing_sku_count nonpositive_sku_count
    negative_total_amount missing_key_fields
  simp only [Bool.or_eq_false_iff]
  refine ⟨⟨⟨rfl, ?_⟩, ?_⟩, ⟨rfl, rfl⟩, rfl⟩
  · simp only [decide_eq_false_iff_not, not_le]
    exact_mod_cast Int.lt_of_lt_of_le Int.zero_lt_one hsku
  · cases ht : c.total_amount with
    | none => rfl
    | some q =>
      simp only [decide_eq_false_iff_not, not_lt]
      exact htot q ht

theorem toCleanOrder_roundtrip (r : RawOrder) :
    toCleanOrder (cleanOrderToRaw (toCleanOrder r)) = toCleanOrder r := by
  unfold toCleanOrder cleanOrderToRaw
  simp only [Option.getD_some, stripStr_idem, Int.floor_intCast]

theorem clean_orders_idem (df : List RawOrder)
    (h : ∀ c ∈ (clean_orders df).1, 1 ≤ c.sku_count) :
    clean_orders ((clean_orders df).1.map cleanOrderToRaw) = ((clean_orders df).1, []) := by
  have hvalid : ∀ x ∈ (clean_orders df).1.map cleanOrderToRaw, invalid_mask x = false := by
    intro x hx
    obtain ⟨c, hc, hmap⟩ := List.mem_map.mp hx
    subst hmap
    exact cleanOrderToRaw_valid c (h c hc) (clean_orders_total_nonneg df c hc)
  unfold clean_orders
  refine Prod.ext ?_ ?_
  · show (((clean_orders df).1.map cleanOrderToRaw).filter
        (fun r => !(invalid_mask r))).map toCleanOrder = (clean_orders df).1
    rw [List.filter_eq_self.mpr (fun x hx => by rw [hvalid x hx]; rfl)]
    rw [List.map_map]
    have hshape : ∀ c ∈ (clean_orders df).1, toCleanOrder (cleanOrderToRaw c) = c := by
      intro c hc
      obtain ⟨r, _, hform⟩ := clean_orders_row_shape df c hc
      subst hform
      exact toCleanOrder_roundtrip r
    exact map_eq_self_of _ _ hshape
  · show ((clean_orders df).1.map cleanOrderToRaw).filter (fun r => invalid_mask r) = []
    rw [List.filter_eq_nil_iff]
    intro x hx
    rw [hvalid x hx]
    simp

/-- A raw order line item whose `sku_count` coerces to one half: it passes
validation (`0.5 > 0`) but `astype(int)` truncates it to `0`, which a second
run of the Cleaning Engine rejects. -/
def fractionalSkuRow : RawOrder :=
  { order_id := some "O1", mobile_number := some "9999999999",
    order_date_time := none, sku_id := some "S1",
    sku_count := some ((1 : ℚ) / 2), total_amount := some 100 }

unseal Rat.add Rat.mul Rat.inv in
/-- Claim C6 (counterexample): re-running order cleaning on the cleaned
output of `[fractionalSkuRow]` does not reproduce it — the surviving row is
routed to invalid on the second pass, so the Cleaning Engine is not
idempotent as claimed. -/
theorem C6_counterexample :
    clean_orders ((clean_orders [fractionalSkuRow]).1.map cleanOrderToRaw) ≠
      ((clean_orders [fractionalSkuRow]).1, []) := by decide

/-- Claim C6 (amended): customer cleaning is idempotent unconditionally;
order cleaning reproduces its own clean output with nothing newly routed to
invalid, provided every cleaned row's truncated `sku_count` is still
positive (raw `sku_count` values strictly between 0 and 1 pass validation
but truncate to 0 and are rejected by a second pass). -/
theorem C6_cleaning_idempotent :
    (∀ df : List Customer, clean_customers (clean_customers df) = clean_customers df) ∧
    (∀ df : List RawOrder, (∀ c ∈ (clean_orders df).1, 1 ≤ c.sku_count) →
      clean_orders ((clean_orders df).1.map cleanOrderToRaw) = ((clean_orders df).1, [])) :=
  ⟨clean_customers_idem, clean_orders_idem⟩

unseal Rat.add Rat.mul Rat.inv in
/-- Witness for C6 at concrete inputs. -/
theorem C6_witness :
    clean_customers (clean_customers
        [{ customer_id := some "CW", customer_name := none,
           mobile_number := some " 123 ", region := some "north east" }]) =
      clean_customers
        [{ customer_id := some "CW", customer_name := none,
           mobile_number := some " 123 ", region := some "north east" }] ∧
    clean_orders ((clean_orders
        [{ order_id := some "O2", mobile_number := some "8888",
           order_date_time := none, sku_id := some "S2",
           sku_count := some 3, total_amount := some 250 : RawOrder }]).1.map cleanOrderToRaw) =
      ((clean_orders
        [{ order_id := some "O2", mobile_number := some "8888",
           order_date_time := none, sku_id := some "S2",
           sku_count := some 3, total_amount := some 250 : RawOrder }]).1, []) :=
  ⟨C6_cleaning_idempotent.1 _, C6_cleaning_idempotent.2 _ (by decide)⟩

/-! ### Join Engine: `DataCleaner.merge_customer_orders` -/

/-- A row of the merged view: all order columns plus the customer columns
brought in by the left join (null for unmatched line items).  `mobile_number`
is the join key and is not suffixed (the code's `suffixes` never fire since
it is the only overlapping column). -/
structure MergedRow where
  order_id : String
  mobile_number : String
  order_date_time : Option Timestamp
  sku_id : String
  sku_count : Int
  total_amount : Option ℚ
  order_year : Option Int
  order_month : Option Int
  order_day : Option Int
  order_hour : Option Int
  order_weekday : Option String
  customer_id : Option String
  customer_name : Option String
  region : Option String
deriving DecidableEq

/-- Build one merged row from an order line item and its (optional) matching
customer. -/
def mergeRow (o : CleanOrder) (c : Option Customer) : MergedRow :=
  { order_id := o.order_id
    mobile_number := o.mobile_number
    order_date_time := o.order_date_time
    sku_id := o.sku_id
    sku_count := o.sku_count
    total_amount := o.total_amount
    order_year := o.order_year
    order_month := o.order_month
    order_day := o.order_day
    order_hour := o.order_hour
    order_weekday := o.order_weekday
    customer_id := c.bind (fun x => x.customer_id)
    customer_name := c.bind (fun x => x.customer_name)
    region := c.bind (fun x => x.region) }

/-- The merged rows contributed by one order line item: one per matching
customer row, or a single row with null customer columns if none matches. -/
def rowsForOrder (customers : List Customer) (o : CleanOrder) : List MergedRow :=
  match customers.filter (fun c => c.mobile_number = some o.mobile_number) with
  | [] => [mergeRow o none]
  | ms => ms.map (fun c => mergeRow o (some c))

/-- `orders_df.merge(customers_df, on='mobile_number', how='left')`: every
order line item appears once per matching customer row, or once with null
customer columns if no customer matches; left (order) row order is kept. -/
def merge_customer_orders (customers : List Customer) (orders : List CleanOrder) :
    List MergedRow :=
  orders.flatMap (rowsForOrder customers)

/-- `merged_df['customer_id'].isna().sum()`: the logged count of order line
items without a matching customer. -/
def unmatchedCount (df : List MergedRow) : Nat :=
  (df.filter (fun r => r.customer_id = none)).length

theorem rowsForOrder_length_pos (customers : List Customer) (o : CleanOrder) :
    1 ≤ (rowsForOrder customers o).length := by
  unfold rowsForOrder
  cases hm : customers.filter (fun c => c.mobile_number = some o.mobile_number) with
  | nil => simp
  | cons m ms => simp

/-- A concrete valid order line item used in the C4 join scenario. -/
def sampleOrder : CleanOrder :=
  { order_id := "O1", mobile_number := "9999999999", order_date_time := none,
    sku_id := "S1", sku_count := 2, total_amount := some 500,
    order_year := none, order_month := none, order_day := none,
    order_hour := none, order_weekday := none }

/-- Claim C4: the left join never drops an order line item — the merged view
has at least as many rows as the clean orders; merging the empty customer
set with one valid line item gives exactly one row whose customer columns
are all null, and the unmatched count is 1. -/
theorem C4_left_join_keeps_orders :
    (∀ (customers : List Customer) (orders : List CleanOrder),
      orders.length ≤ (merge_customer_orders customers orders).length) ∧
    merge_customer_orders [] [sampleOrder] = [mergeRow sampleOrder none] ∧
    (mergeRow sampleOrder none).customer_id = none ∧
    (mergeRow sampleOrder none).customer_name = none ∧
    (mergeRow sampleOrder none).region = none ∧
    unmatchedCount (merge_customer_orders [] [sampleOrder]) = 1 := by
  refine ⟨?_, rfl, rfl, rfl, rfl, rfl⟩
  intro customers orders
  induction orders with
  | nil => simp [merge_customer_orders]
  | cons o os ih =>
    have hcons : merge_customer_orders customers (o :: os) =
        rowsForOrder customers o ++ merge_customer_orders customers os := by
      unfold merge_customer_orders
      rw [List.flatMap_cons]
    rw [hcons, List.length_append, List.length_cons]
    have hone := rowsForOrder_length_pos customers o
    omega

/-! ### pandas-style aggregate helpers (NaN-skipping) -/

/-- `Series.sum()` over a nullable numeric column: NaN values are skipped,
the empty sum is 0. -/
def qSum (l : List (Option ℚ)) : ℚ := (l.filterMap id).sum

/-- `Series.mean()` over a numeric column: the empty mean is NaN (`none`). -/
def meanQ (l : List ℚ) : Option ℚ :=
  if l.isEmpty then none else some (l.sum / (l.length : ℚ))

/-- Mean of a count column. -/
def meanN (l : List Nat) : Option ℚ := meanQ (l.map (fun n => (n : ℚ)))

/-- Mean of an integer column. -/
def meanZ (l : List Int) : Option ℚ := meanQ (l.map (fun n => (n : ℚ)))

/-- `Series.mean()` over a nullable column: NaN skipped. -/
def qMean (l : List (Option ℚ)) : Option ℚ := meanQ (l.filterMap id)

/-- `Series.min()` over a nullable column. -/
def qMin (l : List (Option ℚ)) : Option ℚ :=
  match l.filterMap id with
  | [] => none
  | x :: xs => some (xs.foldl min x)

/-- `Series.max()` over a nullable column. -/
def qMax (l : List (Option ℚ)) : Option ℚ :=
  match l.filterMap id with
  | [] => none
  | x :: xs => some (xs.foldl max x)

/-- Insert into an ascending-sorted list. -/
def insertAsc (x : ℚ) : List ℚ → List ℚ
  | [] => [x]
  | y :: ys => if x ≤ y then x :: y :: ys else y :: insertAsc x ys

/-- Ascending sort (insertion sort). -/
def sortAsc (l : List ℚ) : List ℚ := l.foldr insertAsc []

/-- `Series.median()` over a nullable column: NaN skipped; empty is NaN. -/
def medianQ (l : List (Option ℚ)) : Option ℚ :=
  let v := sortAsc (l.filterMap id)
  if v.isEmpty then none
  else if v.length % 2 = 1 then some (v.getD (v.length / 2) 0)
  else some ((v.getD (v.length / 2 - 1) 0 + v.getD (v.length / 2) 0) / 2)

/-- Insert into a list sorted descending by `key`. -/
def insertDescBy (key : α → ℚ) (x : α) : List α → List α
  | [] => [x]
  | y :: ys => if key y ≤ key x then x :: y :: ys else y :: insertDescBy key x ys

/-- `DataFrame.sort_values(key, ascending=False)` (the claims proved here do
not depend on tie order). -/
def sortDescBy (key : α → ℚ) (l : List α) : List α := l.foldr (insertDescBy key) []

/-- `Series.nunique()` on a non-nullable column. -/
def nuniqueStr (l : List String) : Nat := (dedupList l).length

/-- `Series.nunique()` on a nullable column: nulls are not counted. -/
def nuniqueOpt (l : List (Option String)) : Nat := (dedupList (l.filterMap id)).length

/-- `Series.idxmax()`-style selection: the first entry with the maximal
count. -/
def argmaxCount {κ : Type} : List (κ × Nat) → Option (κ × Nat)
  | [] => none
  | x :: xs => some (xs.foldl (fun b a => if b.2 < a.2 then a else b) x)

/-- Chronological comparison of timestamps. -/
def tsLe (a b : Timestamp) : Bool :=
  if a.year ≠ b.year then decide (a.year < b.year)
  else if a.month ≠ b.month then decide (a.month < b.month)
  else if a.day ≠ b.day then decide (a.day < b.day)
  else if a.hour ≠ b.hour then decide (a.hour < b.hour)
  else if a.minute ≠ b.minute then decide (a.minute < b.minute)
  else decide (a.second ≤ b.second)

/-- `Series.min()` on a datetime column (NaT already filtered by the
caller); empty gives NaT. -/
def tsMin (l : List Timestamp) : Option Timestamp :=
  match l with
  | [] => none
  | x :: xs => some (xs.foldl (fun a b => if tsLe a b then a else b) x)

/-- `Series.max()` on a datetime column. -/
def tsMax (l : List Timestamp) : Option Timestamp :=
  match l with
  | [] => none
  | x :: xs => some (xs.foldl (fun a b => if tsLe a b then b else a) x)

/-- Zero-padding for two-digit datetime components. -/
def pad2 (n : Int) : String := if 0 ≤ n ∧ n < 10 then "0" ++ toString n else toString n

/-- `Timestamp.strftime('%Y-%m-%d %H:%M:%S')`. -/
def formatTs (t : Timestamp) : String :=
  toString t.year ++ "-" ++ pad2 t.month ++ "-" ++ pad2 t.day ++ " " ++
    pad2 t.hour ++ ":" ++ pad2 t.minute ++ ":" ++ pad2 t.second

/-! ### Aggregation Engine: `KPICalculator` -/

/-- The distinct `order_id` values of a merged view (`groupby('order_id')`
group keys / `df['order_id'].nunique()` support). -/
def orderIds (df : List MergedRow) : List String :=
  dedupList (df.map (fun r => r.order_id))

/-- `df.groupby('order_id')['total_amount'].first()` for one order: the
first non-NaN `total_amount` among the order's line items (NaN if all are
NaN). -/
def orderFirstAmount (df : List MergedRow) (oid : String) : Option ℚ :=
  ((df.filter (fun r => r.order_id = oid)).filterMap (fun r => r.total_amount)).head?

/-- `df.groupby('order_id')['total_amount'].first().sum()` — the
order-deduplicated revenue of a set of merged rows. -/
def dedupOrderRevenue (df : List MergedRow) : ℚ :=
  qSum ((orderIds df).map (fun oid => orderFirstAmount df oid))

/-- `df['total_amount'].sum()` — the naive line-item sum the Aggregation
Engine must NOT report as revenue. -/
def naiveLineItemRevenue (df : List MergedRow) : ℚ :=
  qSum (df.map (fun r => r.total_amount))

/-- The distinct non-null `customer_id` values
(`groupby('customer_id')` keys; null keys form no group). -/
def customerIds (df : List MergedRow) : List String :=
  dedupList (df.filterMap (fun r => r.customer_id))

/-- One row of the per-customer detail table of
`_calculate_customer_metrics`. -/
structure CustomerDetail where
  customer_id : String
  total_orders : Nat
  total_revenue : ℚ
  total_items : Nat
  avg_order_value : ℚ
deriving DecidableEq

/-- One group of `df.groupby('customer_id').agg(...)`: unique order count,
order-deduplicated revenue (the agg lambda re-filters the whole frame by
the group key), line-item count (`'sku_id': 'count'`; `sku_id` is non-null
in the merged view so the count is the row count), and the derived average
order value.  Division by zero cannot occur on pipeline data (each group is
non-empty so it has at least one order id). -/
def customerDetail (df : List MergedRow) (cid : String) : CustomerDetail :=
  let rows := df.filter (fun r => r.customer_id = some cid)
  let rev := dedupOrderRevenue (df.filter (fun r => r.customer_id = some cid))
  { customer_id := cid
    total_orders := nuniqueStr (rows.map (fun r => r.order_id))
    total_revenue := rev
    total_items := rows.length
    avg_order_value := rev / (nuniqueStr (rows.map (fun r => r.order_id)) : ℚ) }

/-- Result of `_calculate_customer_metrics`. -/
structure CustomerMetrics where
  total_customers : Nat
  avg_orders_per_customer : Option ℚ
  avg_revenue_per_customer : Option ℚ
  avg_items_per_customer : Option ℚ
  customer_details : List CustomerDetail
deriving DecidableEq

/-- `KPICalculator._calculate_customer_metrics`. -/
def calculate_customer_metrics (df : List MergedRow) : CustomerMetrics :=
  let stats := (customerIds df).map (customerDetail df)
  { total_customers := nuniqueOpt (df.map (fun r => r.customer_id))
    avg_orders_per_customer := meanN (stats.map (fun s => s.total_orders))
    avg_revenue_per_customer := meanQ (stats.map (fun s => s.total_revenue))
    avg_items_per_customer := meanN (stats.map (fun s => s.total_items))
    customer_details := stats }

/-- Result of `_calculate_order_metrics`. -/
structure OrderMetrics where
  total_orders : Nat
  total_order_line_items : Nat
  avg_items_per_order : Option ℚ
  avg_quantity_per_order : Option ℚ
  avg_order_value : Option ℚ
  min_order_value : Option ℚ
  max_order_value : Option ℚ
  median_order_value : Option ℚ
deriving DecidableEq

/-- `KPICalculator._calculate_order_metrics`: per-order first amount,
line-item count (`'sku_id': 'count'`), quantity sum; then the aggregate
statistics (the per-order first date is computed by the code but unused by
the reported metrics). -/
def calculate_order_metrics (df : List MergedRow) : OrderMetrics :=
  let orderValues := (orderIds df).map (fun oid => orderFirstAmount df oid)
  let lineCounts := (orderIds df).map
    (fun oid => (df.filter (fun r => r.order_id = oid)).length)
  let quantities := (orderIds df).map
    (fun oid => ((df.filter (fun r => r.order_id = oid)).map (fun r => r.sku_count)).sum)
  { total_orders := nuniqueStr (df.map (fun r => r.order_id))
    total_order_line_items := df.length
    avg_items_per_order := meanN lineCounts
    avg_quantity_per_order := meanZ quantities
    avg_order_value := qMean orderValues
    min_order_value := qMin orderValues
    max_order_value := qMax orderValues
    median_order_value := medianQ orderValues }

/-- Result of `_calculate_revenue_metrics`. -/
structure RevenueMetrics where
  total_revenue : ℚ
  avg_revenue_per_order : Option ℚ
  total_items_sold : Int
  avg_revenue_per_item : ℚ
deriving DecidableEq

/-- `KPICalculator._calculate_revenue_metrics`: revenue is the
order-deduplicated sum; quantity is summed over ALL line items; the
per-item average is guarded for a zero quantity. -/
def calculate_revenue_metrics (df : List MergedRow) : RevenueMetrics :=
  let orderRevenue := (orderIds df).map (fun oid => orderFirstAmount df oid)
  let items := (df.map (fun r => r.sku_count)).sum
  { total_revenue := qSum orderRevenue
    avg_revenue_per_order := qMean orderRevenue
    total_items_sold := items
    avg_revenue_per_item := if 0 < items then qSum orderRevenue / (items : ℚ) else 0 }

/-- One row of the per-SKU table of `_calculate_product_metrics`. -/
structure SkuStat where
  sku_id : String
  total_quantity_sold : Int
  orders_count : Nat
  line_items : Nat
deriving DecidableEq

/-- Result of `_calculate_product_metrics`. -/
structure ProductMetrics where
  total_unique_skus : Nat
  most_sold_sku : Option String
  most_sold_sku_quantity : Int
  avg_quantity_per_sku : Option ℚ
  sku_performance : List SkuStat
deriving DecidableEq

/-- `KPICalculator._calculate_product_metrics`: per-SKU quantity sum,
distinct order count and line-item frequency, sorted descending by
quantity; the top SKU is guarded for the empty table. -/
def calculate_product_metrics (df : List MergedRow) : ProductMetrics :=
  let stats := (dedupList (df.map (fun r => r.sku_id))).map (fun s =>
    let rows := df.filter (fun r => r.sku_id = s)
    { sku_id := s
      total_quantity_sold := (rows.map (fun r => r.sku_count)).sum
      orders_count := nuniqueStr (rows.map (fun r => r.order_id))
      line_items := rows.length : SkuStat })
  let sorted := sortDescBy (fun s => (s.total_quantity_sold : ℚ)) stats
  { total_unique_skus := nuniqueStr (df.map (fun r => r.sku_id))
    most_sold_sku := sorted.head?.map (fun s => s.sku_id)
    most_sold_sku_quantity :=
      match sorted.head? with
      | some s => s.total_quantity_sold
      | none => 0
    avg_quantity_per_sku := meanZ (stats.map (fun s => s.total_quantity_sold))
    sku_performance := sorted.take 10 }

/-- One row of the regional breakdown. -/
structure RegionalStat where
  region : String
  total_orders : Nat
  total_customers : Nat
  total_revenue : ℚ
  avg_revenue_per_customer : ℚ
deriving DecidableEq

/-- Result of `_calculate_regional_metrics`. -/
structure RegionalMetrics where
  regions_count : Nat
  top_revenue_region : Option String
  regional_breakdown : List RegionalStat
deriving DecidableEq

/-- `KPICalculator._calculate_regional_metrics`.  The revenue loop runs over
`df['region'].unique()` — which includes NaN — and filters with
`df['region'] == region`, where a NaN region matches nothing (pandas `==`
with NaN is always False), giving that entry revenue 0.  When the merged
view is empty the loop body never runs, `pd.DataFrame([])` has NO columns,
and the subsequent `merge(..., on='region')` raises `KeyError` — modelled by
the `Except.error` branch.  Otherwise the inner merge is the default inner
join of the per-region order/customer counts (null group keys dropped) with
the revenue table; the NaN revenue entry never matches a group key, and
keys are unique on both sides so `find?` returns the full match set. -/
def calculate_regional_metrics (df : List MergedRow) : Except String RegionalMetrics :=
  let regionKeys := dedupList (df.filterMap (fun r => r.region))
  let uniqueRegions := dedupList (df.map (fun r => r.region))
  let revenue := uniqueRegions.map (fun g =>
    (g, dedupOrderRevenue (df.filter (fun r =>
      match g with
      | some s => decide (r.region = some s)
      | none => false))))
  if uniqueRegions.isEmpty then
    Except.error "KeyError: region"
  else
    let stats := regionKeys.filterMap (fun g =>
      (revenue.find? (fun e => e.1 = some g)).map (fun e =>
        let rows := df.filter (fun r => r.region = some g)
        let custs := nuniqueOpt (rows.map (fun r => r.customer_id))
        { region := g
          total_orders := nuniqueStr (rows.map (fun r => r.order_id))
          total_customers := custs
          total_revenue := e.2
          avg_revenue_per_customer := e.2 / (custs : ℚ) : RegionalStat }))
    let sorted := sortDescBy (fun s => s.total_revenue) stats
    Except.ok
      { regions_count := nuniqueOpt (df.map (fun r => r.region))
        top_revenue_region := sorted.head?.map (fun s => s.region)
        regional_breakdown := sorted }

/-- One entry of the top-customers table. -/
structure TopCustomer where
  customer_id : Option String
  customer_name : Option String
  region : Option String
  total_revenue : ℚ
  total_orders : Nat
deriving DecidableEq

/-- Result of `_calculate_top_performers`. -/
structure TopPerformers where
  top_5_customers : List TopCustomer
  top_customer_revenue : ℚ
deriving DecidableEq

/-- pandas `==` between two nullable values: NaN equals nothing, not even
NaN. -/
def pandasEqOptStr (a b : Option String) : Bool :=
  match a, b with
  | some x, some y => decide (x = y)
  | _, _ => false

/-- The loop body of `_calculate_top_performers`, one iteration per entry
of `df['customer_id'].unique()` (which INCLUDES NaN).  For a NaN customer
the filter `df['customer_id'] == customer` matches no rows and
`customer_df['customer_name'].iloc[0]` raises `IndexError`. -/
def topCustomerRecords (df : List MergedRow) :
    List (Option String) → Except String (List TopCustomer)
  | [] => Except.ok []
  | c :: cs =>
    match df.filter (fun r => pandasEqOptStr r.customer_id c) with
    | [] => Except.error "IndexError: iloc[0] on empty frame"
    | r0 :: rest =>
      match topCustomerRecords df cs with
      | Except.error e => Except.error e
      | Except.ok tail =>
        Except.ok
          ({ customer_id := c
             customer_name := r0.customer_name
             region := r0.region
             total_revenue := dedupOrderRevenue
               (df.filter (fun r => pandasEqOptStr r.customer_id c))
             total_orders := nuniqueStr
               ((r0 :: rest).map (fun r => r.order_id)) } :: tail)

/-- `KPICalculator._calculate_top_performers`.  When the record list is
empty (empty merged view), `pd.DataFrame([])` has no columns and
`sort_values('total_revenue')` raises `KeyError` — the `Except.error`
branch.  Otherwise the records are ranked descending by revenue; the top
revenue is guarded for the empty table. -/
def calculate_top_performers (df : List MergedRow) : Except String TopPerformers :=
  match topCustomerRecords df (dedupList (df.map (fun r => r.customer_id))) with
  | Except.error e => Except.error e
  | Except.ok recs =>
    match recs with
    | [] => Except.error "KeyError: total_revenue"
    | _ =>
      let sorted := sortDescBy (fun s => s.total_revenue) recs
      Except.ok
        { top_5_customers := sorted.take 5
          top_customer_revenue :=
            match sorted.head? with
            | some s => s.total_revenue
            | none => 0 }

/-- Result of `_calculate_temporal_metrics`. -/
structure TemporalMetrics where
  first_order : Option String
  last_order : Option String
  monthly_breakdown : List ((Int × Int) × Nat)
  weekday_breakdown : List (String × Nat)
  hourly_breakdown : List (Int × Nat)
  busiest_hour : Option Int
  busiest_weekday : Option String
deriving DecidableEq

/-- The `(order_year, order_month)` group key of a row
(`groupby` drops a row whose key has any null component). -/
def ymKey (r : MergedRow) : Option (Int × Int) :=
  match r.order_year, r.order_month with
  | some y, some m => some (y, m)
  | _, _ => none

/-- `KPICalculator._calculate_temporal_metrics`: distinct-order counts per
`(year, month)`, per weekday name and per hour (rows with null keys
excluded by `groupby`); the date range is the min/max of the parsed
timestamps (NaT skipped, guarded by `pd.notna`); the busiest hour/weekday
use `idxmax`, guarded for empty tables. -/
def calculate_temporal_metrics (df : List MergedRow) : TemporalMetrics :=
  let monthly := (dedupList (df.filterMap ymKey)).map (fun k =>
    (k, nuniqueStr ((df.filter (fun r => ymKey r = some k)).map (fun r => r.order_id))))
  let weekday := (dedupList (df.filterMap (fun r => r.order_weekday))).map (fun w =>
    (w, nuniqueStr ((df.filter (fun r => r.order_weekday = some w)).map (fun r => r.order_id))))
  let hourly := (dedupList (df.filterMap (fun r => r.order_hour))).map (fun h =>
    (h, nuniqueStr ((df.filter (fun r => r.order_hour = some h)).map (fun r => r.order_id))))
  let parsed := df.filterMap (fun r => r.order_date_time)
  { first_order := (tsMin parsed).map formatTs
    last_order := (tsMax parsed).map formatTs
    monthly_breakdown := monthly
    weekday_breakdown := weekday
    hourly_breakdown := hourly
    busiest_hour := (argmaxCount hourly).map (fun e => e.1)
    busiest_weekday := (argmaxCount weekday).map (fun e => e.1) }

/-- The full KPI result set of `KPICalculator.calculate_all_kpis`. -/
structure KPIResults where
  customer_metrics : CustomerMetrics
  order_metrics : OrderMetrics
  revenue_metrics : RevenueMetrics
  product_metrics : ProductMetrics
  regional_metrics : RegionalMetrics
  temporal_metrics : TemporalMetrics
  top_performers : TopPerformers
deriving DecidableEq

/-- `KPICalculator.calculate_all_kpis`: the KPI dictionary is built in
source order, so an exception in a group computation propagates and aborts
the whole call. -/
def calculate_all_kpis (df : List MergedRow) : Except String KPIResults :=
  match calculate_regional_metrics df with
  | Except.error e => Except.error e
  | Except.ok regional =>
    match calculate_top_performers df with
    | Except.error e => Except.error e
    | Except.ok top =>
      Except.ok
        { customer_metrics := calculate_customer_metrics df
          order_metrics := calculate_order_metrics df
          revenue_metrics := calculate_revenue_metrics df
          product_metrics := calculate_product_metrics df
          regional_metrics := regional
          temporal_metrics := calculate_temporal_metrics df
          top_performers := top }

/-- Claim C2 (evaluation at the failing input): on the empty merged view,
five of the seven KPI group computations return well-defined empty/zero
results, but the regional metrics and the top performers raise
(`pd.DataFrame([])` built from the empty accumulator list has no columns, so
`merge(..., on='region')` and `sort_values('total_revenue')` raise
`KeyError`), and `calculate_all_kpis` therefore propagates the exception. -/
theorem C2_empty_view_evaluation :
    calculate_customer_metrics [] = ⟨0, none, none, none, []⟩ ∧
    calculate_order_metrics [] = ⟨0, 0, none, none, none, none, none, none⟩ ∧
    calculate_revenue_metrics [] = ⟨0, none, 0, 0⟩ ∧
    calculate_product_metrics [] = ⟨0, none, 0, none, []⟩ ∧
    calculate_temporal_metrics [] = ⟨none, none, [], [], [], none, none⟩ ∧
    calculate_regional_metrics [] = Except.error "KeyError: region" ∧
    calculate_top_performers [] = Except.error "KeyError: total_revenue" ∧
    calculate_all_kpis [] = Except.error "KeyError: region" :=
  ⟨rfl, rfl, rfl, rfl, rfl, rfl, rfl, rfl⟩

/-- First line item of order `O1` for customer `C1` (total 500). -/
def c7row1 : MergedRow :=
  { order_id := "O1", mobile_number := "9999999999", order_date_time := none,
    sku_id := "S1", sku_count := 1, total_amount := some 500,
    order_year := none, order_month := none, order_day := none,
    order_hour := none, order_weekday := none,
    customer_id := some "C1", customer_name := some "CustOne", region := some "North" }

/-- Second line item of order `O1` (repeats the order total 500). -/
def c7row2 : MergedRow :=
  { c7row1 with sku_id := "S2" }

/-- Line item of order `O2` (total 300). -/
def c7row3 : MergedRow :=
  { c7row1 with order_id := "O2", sku_id := "S3", total_amount := some 300 }

/-- The merged view of the C7 scenario: customer `C1` has two line items
under `O1` (each carrying the order total 500) and one under `O2`
(total 300). -/
def c7View : List MergedRow := [c7row1, c7row2, c7row3]

unseal Rat.add Rat.mul Rat.inv in
/-- Claim C7: in the scenario view, the per-customer detail row for `C1`
reports 2 orders, revenue 800 (order-deduplicated), 3 items and average
order value 400. -/
theorem C7_customer_scenario :
    (calculate_customer_metrics c7View).customer_details =
      [{ customer_id := "C1", total_orders := 2, total_revenue := 800,
         total_items := 3, avg_order_value := 400 }] := by decide

/-- Claim C8: on a non-empty merged view in which every row's date failed to
parse (and hence every derived calendar column is null), the temporal
metrics are all empty/null and the computation is total (it cannot raise):
the date range is `(none, none)`, all three breakdowns are empty and the
busiest hour/weekday are null. -/
theorem C8_all_dates_null (df : List MergedRow) (hne : df ≠ [])
    (hnull : ∀ r ∈ df, r.order_date_time = none ∧ r.order_year = none ∧
      r.order_month = none ∧ r.order_hour = none ∧ r.order_weekday = none) :
    calculate_temporal_metrics df = ⟨none, none, [], [], [], none, none⟩ := by
  have hym : df.filterMap ymKey = [] := by
    rw [List.filterMap_eq_nil_iff]
    intro r hr
    unfold ymKey
    rw [(hnull r hr).2.1]
  have hwd : df.filterMap (fun r => r.order_weekday) = [] := by
    rw [List.filterMap_eq_nil_iff]
    intro r hr
    exact (hnull r hr).2.2.2.2
  have hhr : df.filterMap (fun r => r.order_hour) = [] := by
    rw [List.filterMap_eq_nil_iff]
    intro r hr
    exact (hnull r hr).2.2.2.1
  have hts : df.filterMap (fun r => r.order_date_time) = [] := by
    rw [List.filterMap_eq_nil_iff]
    intro r hr
    exact (hnull r hr).1
  unfold calculate_temporal_metrics
  rw [hym, hwd, hhr, hts]
  rfl

/-- A merged row whose date failed to parse. -/
def nullDateRow : MergedRow :=
  { order_id := "O9", mobile_number := "7777777777", order_date_time := none,
    sku_id := "S9", sku_count := 1, total_amount := some 10,
    order_year := none, order_month := none, order_day := none,
    order_hour := none, order_weekday := none,
    customer_id := none, customer_name := none, region := none }

/-- Witness for C8 at a concrete one-row view. -/
theorem C8_witness :
    calculate_temporal_metrics [nullDateRow] = ⟨none, none, [], [], [], none, none⟩ :=
  C8_all_dates_null [nullDateRow] (by decide) (by decide)

/-! ### Sum-over-groups machinery for claim C1 -/

theorem filterMap_all_some (f : α → Option β) (g : α → β) (l : List α)
    (h : ∀ x ∈ l, f x = some (g x)) : l.filterMap f = l.map g := by
  induction l with
  | nil => rfl
  | cons x xs ih =>
    rw [List.filterMap_cons, h x (List.mem_cons_self _ _), List.map_cons,
      ih (fun a ha => h a (List.mem_cons_of_mem _ ha))]

theorem map_const_sum (f : α → ℚ) (c : ℚ) (l : List α) (h : ∀ x ∈ l, f x = c) :
    (l.map f).sum = (l.length : ℚ) * c := by
  induction l with
  | nil => simp
  | cons x xs ih =>
    rw [List.map_cons, List.sum_cons, h x (List.mem_cons_self _ _),
      ih (fun a ha => h a (List.mem_cons_of_mem _ ha)), List.length_cons]
    push_cast
    ring

theorem sum_extract [DecidableEq κ] (g : κ → ℚ) (D : List κ) (k : κ)
    (hnd : D.Nodup) (hk : k ∈ D) :
    (D.map g).sum = g k + ((D.filter (fun x => x ≠ k)).map g).sum := by
  induction D with
  | nil => simp at hk
  | cons d ds ih =>
    by_cases hd : d = k
    · subst hd
      have hfil : ds.filter (fun x => x ≠ d) = ds := by
        rw [List.filter_eq_self]
        intro x hx
        have hne : d ≠ x := by
          intro he
          rw [he] at hnd
          exact (List.nodup_cons.mp hnd).1 hx
        simpa using fun he => hne he.symm
      rw [List.filter_cons_of_neg (by simp), hfil, List.map_cons, List.sum_cons]
    · have hk' : k ∈ ds := by
        rcases List.mem_cons.mp hk with h | h
        · exact absurd h.symm hd
        · exact h
      rw [List.filter_cons_of_pos (by simpa using hd), List.map_cons, List.map_cons,
        List.sum_cons, List.sum_cons, ih (List.nodup_cons.mp hnd).2 hk']
      ring

theorem group_sum (key : α → κ) [DecidableEq κ] (f : α → ℚ) (l : List α) :
    ((dedupList (l.map key)).map
      (fun k => ((l.filter (fun x => key x = k)).map f).sum)).sum = (l.map f).sum := by
  induction l with
  | nil => rfl
  | cons r rs ih =>
    have hdl : dedupList ((r :: rs).map key) =
        key r :: (dedupList (rs.map key)).filter (fun y => y ≠ key r) := by
      rw [List.map_cons, dedupList]
    rw [hdl, List.map_cons, List.sum_cons]
    have hgrp0 : ((r :: rs).filter (fun x => key x = key r)).map f =
        f r :: ((rs.filter (fun x => key x = key r)).map f) := by
      rw [List.filter_cons_of_pos (by simp), List.map_cons]
    have hgrpmap : ((dedupList (rs.map key)).filter (fun y => y ≠ key r)).map
          (fun k => (((r :: rs).filter (fun x => key x = k)).map f).sum) =
        ((dedupList (rs.map key)).filter (fun y => y ≠ key r)).map
          (fun k => ((rs.filter (fun x => key x = k)).map f).sum) := by
      apply List.map_congr_left
      intro k hkmem
      have hkne : k ≠ key r := by
        have := (List.mem_filter.mp hkmem).2
        simpa using this
      rw [List.filter_cons_of_neg (by simpa using fun he => hkne he.symm)]
    rw [hgrp0, hgrpmap, List.sum_cons, List.map_cons, List.sum_cons]
    by_cases hmem : key r ∈ dedupList (rs.map key)
    · have hext := sum_extract (fun k => ((rs.filter (fun x => key x = k)).map f).sum)
        (dedupList (rs.map key)) (key r) (nodup_dedupList _) hmem
      rw [← ih, hext]
      ring
    · have hgone : rs.filter (fun x => key x = key r) = [] := by
        rw [List.filter_eq_nil_iff]
        intro x hx he
        apply hmem
        rw [mem_dedupList]
        exact List.mem_map.mpr ⟨x, hx, by simpa using he.symm⟩
      have hfilid : (dedupList (rs.map key)).filter (fun y => y ≠ key r) =
          dedupList (rs.map key) := by
        rw [List.filter_eq_self]
        intro y hy
        have : y ≠ key r := by
          intro he
          rw [he] at hy
          exact hmem hy
        simpa using this
      rw [hgone, hfilid, ← ih]
      simp

theorem qSum_map_some (g : κ → ℚ) (l : List κ) :
    qSum (l.map (fun x => some (g x))) = (l.map g).sum := by
  induction l with
  | nil => rfl
  | cons x xs ih =>
    unfold qSum at *
    rw [List.map_cons, List.filterMap_cons, List.map_cons, List.sum_cons]
    show (g x :: (xs.map (fun y => some (g y))).filterMap id).sum = _
    rw [List.sum_cons, ih]

theorem orderIds_mem_iff (df : List MergedRow) (k : String) :
    k ∈ orderIds df ↔ ∃ r ∈ df, r.order_id = k := by
  unfold orderIds
  rw [mem_dedupList]
  constructor
  · intro h
    obtain ⟨r, hr, he⟩ := List.mem_map.mp h
    exact ⟨r, hr, he⟩
  · intro h
    obtain ⟨r, hr, he⟩ := h
    exact List.mem_map.mpr ⟨r, hr, he⟩

theorem orderFirstAmount_of_uniform (df : List MergedRow) (t : String → ℚ)
    (ht : ∀ r ∈ df, r.total_amount = some (t r.order_id)) :
    ∀ k ∈ orderIds df, orderFirstAmount df k = some (t k) := by
  intro k hk
  obtain ⟨r0, hr0, he0⟩ := (orderIds_mem_iff df k).mp hk
  unfold orderFirstAmount
  have hgrp_all : ∀ x ∈ df.filter (fun r => r.order_id = k),
      x.total_amount = some (t k) := by
    intro x hx
    have hxdf := (List.mem_filter.mp hx).1
    have hxkey : x.order_id = k := by simpa using (List.mem_filter.mp hx).2
    rw [ht x hxdf, hxkey]
  rw [filterMap_all_some _ (fun _ => t k) _ hgrp_all]
  have hmem0 : r0 ∈ df.filter (fun r => r.order_id = k) :=
    List.mem_filter.mpr ⟨hr0, by simpa using he0⟩
  cases hg : df.filter (fun r => r.order_id = k) with
  | nil =>
    rw [hg] at hmem0
    simp at hmem0
  | cons a as => simp

/-- Claim C1 (amended): for every merged view in which each line item
carries its order's (non-null, non-negative) total — the data-model
invariant — the Aggregation Engine's revenue figure equals the per-order
total summed once per distinct `order_id`; and whenever some order has more
than one line item and a strictly positive total, that figure differs from
the naive line-item sum of `total_amount`. -/
theorem C1_revenue_order_dedup (df : List MergedRow) (t : String → ℚ)
    (ht : ∀ r ∈ df, r.total_amount = some (t r.order_id))
    (hpos : ∀ r ∈ df, 0 ≤ t r.order_id) :
    (calculate_revenue_metrics df).total_revenue = ((orderIds df).map t).sum ∧
    ∀ k, 2 ≤ (df.filter (fun r => r.order_id = k)).length → 0 < t k →
      (calculate_revenue_metrics df).total_revenue ≠ naiveLineItemRevenue df := by
  have hfirst := orderFirstAmount_of_uniform df t ht
  have hrev : (calculate_revenue_metrics df).total_revenue = ((orderIds df).map t).sum := by
    show qSum ((orderIds df).map (fun oid => orderFirstAmount df oid)) =
      ((orderIds df).map t).sum
    rw [List.map_congr_left hfirst]
    exact qSum_map_some t (orderIds df)
  refine ⟨hrev, ?_⟩
  intro k hk2 htk
  have hnaive : naiveLineItemRevenue df = (df.map (fun r => t r.order_id)).sum := by
    unfold naiveLineItemRevenue qSum
    rw [List.filterMap_map]
    rw [filterMap_all_some _ (fun r => t r.order_id) _ ht]
  have hgrouped := group_sum (fun r : MergedRow => r.order_id) (fun r => t r.order_id) df
  have hgroup_val : ∀ k' ∈ dedupList (df.map (fun r : MergedRow => r.order_id)),
      ((df.filter (fun x => x.order_id = k')).map (fun r => t r.order_id)).sum =
      ((df.filter (fun x => x.order_id = k')).length : ℚ) * t k' := by
    intro k' _
    apply map_const_sum
    intro x hx
    have hxk : x.order_id = k' := by simpa using (List.mem_filter.mp hx).2
    rw [hxk]
  have hkmem : k ∈ orderIds df := by
    have hne : df.filter (fun r => r.order_id = k) ≠ [] := by
      intro hnil
      rw [hnil] at hk2
      simp at hk2
    obtain ⟨x, hx⟩ := List.exists_mem_of_ne_nil _ hne
    exact (orderIds_mem_iff df k).mpr
      ⟨x, (List.mem_filter.mp hx).1, by simpa using (List.mem_filter.mp hx).2⟩
  have hlt : ((orderIds df).map t).sum < (df.map (fun r => t r.order_id)).sum := by
    rw [← hgrouped, List.map_congr_left hgroup_val]
    apply List.sum_lt_sum
    · intro k' hk'
      obtain ⟨r', hr', he'⟩ := (orderIds_mem_iff df k').mp hk'
      have hn1 : 1 ≤ (df.filter (fun x => x.order_id = k')).length :=
        List.length_pos_of_mem (List.mem_filter.mpr ⟨hr', by simpa using he'⟩)
      have ht' : 0 ≤ t k' := by
        have := hpos r' hr'
        rw [he'] at this
        exact this
      calc t k' = 1 * t k' := (one_mul _).symm
      _ ≤ ((df.filter (fun x => x.order_id = k')).length : ℚ) * t k' :=
        mul_le_mul_of_nonneg_right (by exact_mod_cast hn1) ht'
    · refine ⟨k, hkmem, ?_⟩
      calc t k = 1 * t k := (one_mul _).symm
      _ < ((df.filter (fun x => x.order_id = k)).length : ℚ) * t k := by
        apply mul_lt_mul_of_pos_right _ htk
        exact_mod_cast Nat.lt_of_lt_of_le Nat.one_lt_two hk2
  rw [hrev, hnaive]
  exact ne_of_lt hlt

/-- First of two line items of order `O1` carrying total 0. -/
def zrow1 : MergedRow :=
  { order_id := "O1", mobile_number := "1111111111", order_date_time := none,
    sku_id := "S1", sku_count := 1, total_amount := some 0,
    order_year := none, order_month := none, order_day := none,
    order_hour := none, order_weekday := none,
    customer_id := none, customer_name := none, region := none }

/-- Second line item of order `O1` carrying total 0. -/
def zrow2 : MergedRow := { zrow1 with sku_id := "S2" }

/-- A merged view with one order of two line items, each with `total_amount`
0. -/
def zeroAmountView : List MergedRow := [zrow1, zrow2]

unseal Rat.add Rat.mul Rat.inv in
/-- Claim C1 (counterexample): in `zeroAmountView` the order `O1` has two
line items, yet the revenue figure EQUALS the naive line-item sum (both are
0) — refuting the claim that any order with more than one line item makes
the two figures differ. -/
theorem C1_counterexample :
    2 ≤ (zeroAmountView.filter (fun r => r.order_id = "O1")).length ∧
    (calculate_revenue_metrics zeroAmountView).total_revenue =
      naiveLineItemRevenue zeroAmountView := by decide

/-- First line item of order `O1` (total 500) for the C1 witness. -/
def c1wRow1 : MergedRow :=
  { order_id := "O1", mobile_number := "2222222222", order_date_time := none,
    sku_id := "S1", sku_count := 1, total_amount := some 500,
    order_year := none, order_month := none, order_day := none,
    order_hour := none, order_weekday := none,
    customer_id := none, customer_name := none, region := none }

/-- Second line item of order `O1`. -/
def c1wRow2 : MergedRow := { c1wRow1 with sku_id := "S2" }

/-- Line item of order `O2` (total 300). -/
def c1wRow3 : MergedRow :=
  { c1wRow1 with order_id := "O2", sku_id := "S3", total_amount := some 300 }

/-- Concrete merged view for the C1 witness. -/
def c1wView : List MergedRow := [c1wRow1, c1wRow2, c1wRow3]

/-- The per-order totals of `c1wView`. -/
def c1wTotals : String → ℚ := fun oid => if oid = "O1" then 500 else 300

unseal Rat.add Rat.mul Rat.inv in
/-- Witness for C1 at `c1wView`. -/
theorem C1_witness :
    (calculate_revenue_metrics c1wView).total_revenue =
      ((orderIds c1wView).map c1wTotals).sum ∧
    (calculate_revenue_metrics c1wView).total_revenue ≠ naiveLineItemRevenue c1wView :=
  ⟨(C1_revenue_order_dedup c1wView c1wTotals (by decide) (by decide)).1,
   (C1_revenue_order_dedup c1wView c1wTotals (by decide) (by decide)).2 "O1"
     (by decide) (by decide)⟩

/-! ### Claim C10: unmatched rows in the aggregates -/

/-- Erase the customer columns of a merged row (makes it an "unmatched"
row); the order columns are untouched. -/
def stripCustomerCols (r : MergedRow) : MergedRow :=
  { r with customer_id := none, customer_name := none, region := none }

theorem filterMap_congr_pt (f g : α → Option β) (l : List α)
    (h : ∀ x ∈ l, f x = g x) : l.filterMap f = l.filterMap g := by
  induction l with
  | nil => rfl
  | cons x xs ih =>
    rw [List.filterMap_cons, List.filterMap_cons, h x (List.mem_cons_self _ _),
      ih (fun a ha => h a (List.mem_cons_of_mem _ ha))]

theorem filterMap_filter_ne_none (f : α → Option String) (l : List α) :
    (l.filter (fun x => f x ≠ none)).filterMap f = l.filterMap f := by
  induction l with
  | nil => rfl
  | cons x xs ih =>
    cases hfx : f x with
    | none =>
      rw [List.filter_cons_of_neg (by simp [hfx]), List.filterMap_cons, hfx, ih]
    | some b =>
      rw [List.filter_cons_of_pos (by simp [hfx]), List.filterMap_cons, hfx,
        List.filterMap_cons, hfx, ih]

theorem filter_subsumed (p q : α → Bool) (l : List α)
    (h : ∀ x, p x = true → q x = true) : (l.filter q).filter p = l.filter p := by
  induction l with
  | nil => rfl
  | cons x xs ih =>
    by_cases hp : p x
    · rw [List.filter_cons_of_pos (h x hp), List.filter_cons_of_pos hp,
        List.filter_cons_of_pos hp, ih]
    · have hp' : p x = false := Bool.eq_false_iff.mpr hp
      by_cases hq : q x
      · rw [List.filter_cons_of_pos hq, List.filter_cons_of_neg (by rw [hp']; simp),
          List.filter_cons_of_neg (by rw [hp']; simp), ih]
      · have hq' : q x = false := Bool.eq_false_iff.mpr hq
        rw [List.filter_cons_of_neg (by rw [hq']; simp),
          List.filter_cons_of_neg (by rw [hp']; simp), ih]

theorem customerIds_matched (df : List MergedRow) :
    customerIds (df.filter (fun r => r.customer_id ≠ none)) = customerIds df := by
  unfold customerIds
  rw [filterMap_filter_ne_none]

theorem filter_cid_matched (df : List MergedRow) (cid : String) :
    (df.filter (fun r => r.customer_id ≠ none)).filter
      (fun r => r.customer_id = some cid) =
    df.filter (fun r => r.customer_id = some cid) := by
  apply filter_subsumed
  intro x hx
  simp only [decide_eq_true_eq] at hx
  simp [hx]

theorem customerDetail_matched (df : List MergedRow) (cid : String) :
    customerDetail df cid =
      customerDetail (df.filter (fun r => r.customer_id ≠ none)) cid := by
  unfold customerDetail
  rw [filter_cid_matched]

theorem nuniqueOpt_map (f : α → Option String) (l : List α) :
    nuniqueOpt (l.map f) = (dedupList (l.filterMap f)).length := by
  unfold nuniqueOpt
  rw [List.filterMap_map]
  rfl

theorem customer_metrics_matched (df : List MergedRow) :
    calculate_customer_metrics df =
      calculate_customer_metrics (df.filter (fun r => r.customer_id ≠ none)) := by
  unfold calculate_customer_metrics
  have hstats : (customerIds df).map (customerDetail df) =
      (customerIds (df.filter (fun r => r.customer_id ≠ none))).map
        (customerDetail (df.filter (fun r => r.customer_id ≠ none))) := by
    rw [customerIds_matched]
    exact List.map_congr_left (fun cid _ => customerDetail_matched df cid)
  have htc : nuniqueOpt (df.map (fun r => r.customer_id)) =
      nuniqueOpt ((df.filter (fun r => r.customer_id ≠ none)).map
        (fun r => r.customer_id)) := by
    rw [nuniqueOpt_map, nuniqueOpt_map, filterMap_filter_ne_none]
  rw [hstats, htc]

theorem orderIds_strip (df : List MergedRow) :
    orderIds (df.map stripCustomerCols) = orderIds df := by
  unfold orderIds
  rw [List.map_map]
  exact congrArg dedupList (List.map_congr_left (fun x _ => rfl))

theorem filter_oid_strip (df : List MergedRow) (oid : String) :
    (df.map stripCustomerCols).filter (fun r => r.order_id = oid) =
    (df.filter (fun r => r.order_id = oid)).map stripCustomerCols := by
  rw [List.filter_map]
  exact congrArg (List.map stripCustomerCols) (List.filter_congr (fun x _ => rfl))

theorem orderFirstAmount_strip (df : List MergedRow) (oid : String) :
    orderFirstAmount (df.map stripCustomerCols) oid = orderFirstAmount df oid := by
  unfold orderFirstAmount
  rw [filter_oid_strip, List.filterMap_map]
  exact congrArg List.head? (filterMap_congr_pt _ _ _ (fun x _ => rfl))

theorem revenue_metrics_strip (df : List MergedRow) :
    calculate_revenue_metrics (df.map stripCustomerCols) =
      calculate_revenue_metrics df := by
  unfold calculate_revenue_metrics
  rw [orderIds_strip]
  have h1 : (orderIds df).map (fun oid => orderFirstAmount (df.map stripCustomerCols) oid) =
      (orderIds df).map (fun oid => orderFirstAmount df oid) :=
    List.map_congr_left (fun oid _ => orderFirstAmount_strip df oid)
  have h2 : (df.map stripCustomerCols).map (fun r => r.sku_count) =
      df.map (fun r => r.sku_count) := by
    rw [List.map_map]
    exact List.map_congr_left (fun x _ => rfl)
  rw [h1, h2]

theorem order_metrics_strip (df : List MergedRow) :
    calculate_order_metrics (df.map stripCustomerCols) =
      calculate_order_metrics df := by
  unfold calculate_order_metrics
  rw [orderIds_strip]
  have h1 : (orderIds df).map (fun oid => orderFirstAmount (df.map stripCustomerCols) oid) =
      (orderIds df).map (fun oid => orderFirstAmount df oid) :=
    List.map_congr_left (fun oid _ => orderFirstAmount_strip df oid)
  have h2 : (orderIds df).map
        (fun oid => ((df.map stripCustomerCols).filter (fun r => r.order_id = oid)).length) =
      (orderIds df).map (fun oid => (df.filter (fun r => r.order_id = oid)).length) := by
    apply List.map_congr_left
    intro oid _
    rw [filter_oid_strip, List.length_map]
  have h3 : (orderIds df).map
        (fun oid => (((df.map stripCustomerCols).filter
          (fun r => r.order_id = oid)).map (fun r => r.sku_count)).sum) =
      (orderIds df).map
        (fun oid => ((df.filter (fun r => r.order_id = oid)).map (fun r => r.sku_count)).sum) := by
    apply List.map_congr_left
    intro oid _
    rw [filter_oid_strip, List.map_map]
    exact congrArg List.sum (List.map_congr_left (fun x _ => rfl))
  have h4 : (df.map stripCustomerCols).map (fun r => r.order_id) =
      df.map (fun r => r.order_id) := by
    rw [List.map_map]
    exact List.map_congr_left (fun x _ => rfl)
  have h5 : (df.map stripCustomerCols).length = df.length := List.length_map _ _
  rw [h1, h2, h3, h4, h5]

theorem sum_filter_split_int (p : α → Bool) (f : α → Int) (l : List α) :
    (l.map f).sum = ((l.filter p).map f).sum + ((l.filter (fun x => !(p x))).map f).sum := by
  induction l with
  | nil => rfl
  | cons x xs ih =>
    by_cases h : p x
    · rw [List.filter_cons_of_pos h, List.filter_cons_of_neg (by rw [h]; simp),
        List.map_cons, List.map_cons, List.sum_cons, List.sum_cons, ih]
      ring
    · have h' : p x = false := Bool.eq_false_iff.mpr h
      rw [List.filter_cons_of_neg (by rw [h']; simp),
        List.filter_cons_of_pos (by rw [h']; simp),
        List.map_cons, List.map_cons, List.sum_cons, List.sum_cons, ih]
      ring

/-- Claim C10: unmatched rows (null `customer_id` after the left join) are
invisible to the customer metrics — restricting the view to matched rows
changes nothing there — while the order-level and revenue-level metrics do
not read the customer columns at all (erasing them changes nothing), and
the total quantity sold splits over the matched/unmatched partition, so
unmatched rows contribute in full. -/
theorem C10_unmatched_rows (df : List MergedRow) :
    calculate_customer_metrics df =
      calculate_customer_metrics (df.filter (fun r => r.customer_id ≠ none)) ∧
    calculate_revenue_metrics (df.map stripCustomerCols) = calculate_revenue_metrics df ∧
    calculate_order_metrics (df.map stripCustomerCols) = calculate_order_metrics df ∧
    (calculate_revenue_metrics df).total_items_sold =
      (calculate_revenue_metrics (df.filter
        (fun r => r.customer_id ≠ none))).total_items_sold +
      (calculate_revenue_metrics (df.filter
        (fun r => r.customer_id = none))).total_items_sold := by
  refine ⟨customer_metrics_matched df, revenue_metrics_strip df, order_metrics_strip df, ?_⟩
  show (df.map (fun r => r.sku_count)).sum =
    ((df.filter (fun r => r.customer_id ≠ none)).map (fun r => r.sku_count)).sum +
    ((df.filter (fun r => r.customer_id = none)).map (fun r => r.sku_count)).sum
  have hsplit := sum_filter_split_int (fun r => r.customer_id ≠ none)
    (fun r => r.sku_count) df
  have hpt : ∀ x ∈ df, (!(decide (x.customer_id ≠ none))) = decide (x.customer_id = none) := by
    intro x _
    cases x.customer_id <;> simp
  rw [List.filter_congr hpt] at hsplit
  exact hsplit

/-- A one-row raw customer input used by the C5 witness. -/
def c5wRow : Customer :=
  { customer_id := some "A1", customer_name := some "ann",
    mobile_number := some " 5550001111 ", region := some "west" }

/-- Witness for C5 at a concrete input and a concrete cleaned record. -/
theorem C5_witness :
    (clean_customers [c5wRow]).Pairwise (fun a b => a.customer_id ≠ b.customer_id) ∧
    (fillAndNormalize c5wRow).mobile_number ≠ none :=
  ⟨(C5_clean_customers_invariants [c5wRow]).1,
   (C5_clean_customers_invariants [c5wRow]).2 (fillAndNormalize c5wRow) (by decide)⟩

/-- A one-row raw customer input used by the C9 witness. -/
def c9wRow : Customer :=
  { customer_id := some "B1", customer_name := some "bo",
    mobile_number := some " 5550002222", region := some "east" }

/-- Witness for the amended C9 at a concrete input. -/
theorem C9_witness :
    ∃ s, (fillAndNormalize c9wRow).mobile_number = some s ∧ stripStr s = s :=
  C9_amended_mobile_nonnull [c9wRow] (fillAndNormalize c9wRow) (by decide)

end Pipeline
